import Mathlib

/-!
Verification development for the GovExpense travel-expense calculator
(`src/expense_calculator.py`, class `ExpenseCalculator`).

Shallow embedding conventions:
* Python floats that only ever hold exact monetary/tariff values are
  modelled as `ℚ`; Python `int` is modelled as `ℤ`.
* The `datetime` pair given to `calculate_per_diem` is modelled by the two
  timestamps in seconds (`start_time`, `end_time : ℚ`), so that
  `duration.total_seconds()` becomes `end_time - start_time`.
* String-keyed enumerations ("C1-C8"/"C9-C11", "single"/"double", ...) are
  modelled as inductive types; the `.get(key, default)` dictionary lookups
  of the source become total functions (the defaults are dead, since the
  key type is exhausted by the enumeration).
* The Thai warning strings appended by the accommodation validator are
  modelled by the tag type `Warning`, one constructor per distinct append
  site (the two textual variants of the exceeds-ceiling message are the
  same tag).
* Result dictionaries become structures; keys that are present only in
  some branches become `Option` fields.
-/

namespace GovExpense

/-- Personnel grade: the two `c_level` keys "C1-C8" (junior) and "C9-C11"
(senior). -/
inductive CLevel
  | c1c8
  | c9c11
deriving DecidableEq

/-- Room type keys "single" and "double". -/
inductive RoomType
  | single
  | double
deriving DecidableEq

/-- Accommodation reimbursement method keys "lump_sum" and "actual". -/
inductive ExpenseType
  | lump_sum
  | actual
deriving DecidableEq

/-- Trip type keys "general" and "training". -/
inductive TripType
  | general
  | training
deriving DecidableEq

/-- Training venue keys "state" and "private". -/
inductive TrainingVenue
  | state
  | privateVenue
deriving DecidableEq

/-- `PER_DIEM_RATES` table (Baht/day). -/
def PER_DIEM_RATES : CLevel → ℚ
  | .c1c8 => 240
  | .c9c11 => 270

/-- `ACCOM_GENERAL["lump_sum"]` table (Baht/night). -/
def ACCOM_GENERAL_lump_sum : CLevel → ℚ
  | .c1c8 => 800
  | .c9c11 => 1200

/-- `ACCOM_GENERAL["actual"]` table (per-night ceiling, Baht). -/
def ACCOM_GENERAL_actual : CLevel → RoomType → ℚ
  | .c1c8, .single => 1500
  | .c1c8, .double => 850
  | .c9c11, .single => 2200
  | .c9c11, .double => 1200

/-- `ACCOM_TRAINING_PRIVATE` table (per-night ceiling, Baht). -/
def ACCOM_TRAINING_PRIVATE : CLevel → RoomType → ℚ
  | .c1c8, .single => 1600
  | .c1c8, .double => 1000
  | .c9c11, .single => 2700
  | .c9c11, .double => 1500

/-- Training meal classification "Type A" / "Type B". -/
inductive TrainingType
  | typeA
  | typeB
deriving DecidableEq

/-- `TRAINING_RATES` table: `(meal, snack)` rates by venue and type. -/
def TRAINING_RATES : TrainingVenue → TrainingType → ℚ × ℚ
  | .state, .typeA => (400, 35)
  | .state, .typeB => (200, 35)
  | .privateVenue, .typeA => (700, 50)
  | .privateVenue, .typeB => (400, 50)

/-- Result dictionary of `calculate_per_diem`. -/
structure PerDiemResult where
  days_count : ℚ
  rate_per_day : ℚ
  base_amount : ℚ
  provided_meals : ℤ
  deduction : ℚ
  net_amount : ℚ
deriving DecidableEq

/-- `calculate_per_diem` (src lines 55-114).  The `datetime` arguments are
modelled by timestamps in seconds, so `total_seconds = end_time - start_time`.
Python `total_seconds // 86400` is a float floor division and
`int(·)` of that whole float is exact, hence `⌊·⌋`; `% 86400` is
`ts - 86400 * ⌊ts / 86400⌋`. -/
def calculate_per_diem (start_time end_time : ℚ) (is_overnight : Bool)
    (c_level : CLevel) (provided_meals : ℤ) : PerDiemResult :=
  let total_seconds := end_time - start_time
  let days_count : ℚ :=
    if is_overnight then
      let days : ℤ := ⌊total_seconds / (24 * 3600)⌋
      let remainder_seconds := total_seconds - 24 * 3600 * days
      if remainder_seconds > 12 * 3600 then (days + 1 : ℤ) else (days : ℤ)
    else
      if total_seconds > 12 * 3600 then 1
      else if total_seconds > 6 * 3600 then 1 / 2
      else 0
  let rate := PER_DIEM_RATES c_level
  let base := days_count * rate
  let deduction : ℚ := if provided_meals > 0 then rate / 3 * provided_meals else 0
  let net := if provided_meals > 0 then max 0 (base - deduction) else base
  { days_count := days_count
    rate_per_day := rate
    base_amount := base
    provided_meals := provided_meals
    deduction := deduction
    net_amount := net }

example :
    (calculate_per_diem 0 86400 true .c1c8 0).days_count = 1 := by
  norm_num [calculate_per_diem]

example :
    (calculate_per_diem 0 129601 true .c1c8 0).days_count = 2 := by
  norm_num [calculate_per_diem]

example :
    (calculate_per_diem 0 129599 true .c1c8 0).days_count = 1 := by
  norm_num [calculate_per_diem]

example :
    (calculate_per_diem 0 43200 false .c9c11 0).days_count = 1 / 2 := by
  norm_num [calculate_per_diem]

example :
    (calculate_per_diem 0 21600 false .c9c11 0).days_count = 0 := by
  norm_num [calculate_per_diem]

example :
    (calculate_per_diem 0 86400 true .c1c8 4).net_amount = 0 := by
  norm_num [calculate_per_diem, PER_DIEM_RATES]

/-- Tags for the warning strings appended by the accommodation validator,
one per distinct append site:
* `receiptFolio` — "ต้องแนบใบเสร็จรับเงิน (Receipt) และ Folio ประกอบการเบิก";
* `exceedsCeiling` — the exceeds-ceiling message (both its textual
  variants, src lines 212-215, 273 and 328-331);
* `stateVenueNote` — the state-venue explanatory note (src line 245);
* `juniorSingleNote` — the C1-C8 single-room-at-private-venue policy note
  (src lines 296-299). -/
inductive Warning
  | receiptFolio
  | exceedsCeiling
  | stateVenueNote
  | juniorSingleNote
deriving DecidableEq

/-- The `"type"` discriminator of an accommodation result dictionary. -/
inductive AccomKind
  | vehicle_sleep
  | lump_sum
  | actual
deriving DecidableEq

/-- Result dictionary of `validate_accommodation`.  Keys present only in
some branches are `Option` fields; the purely decorative `"remark"` string
is not modelled. -/
structure AccommodationResult where
  kind : AccomKind
  nights : ℤ
  rate_per_night : ℚ
  allowed_per_night : ℚ
  total_allowed : Option ℚ
  total_ceiling : Option ℚ
  actual_cost : Option ℚ
  reimbursable_amount : ℚ
  is_approved : Bool
  room_type : Option RoomType
  trip_type : TripType
  training_venue : Option TrainingVenue
  warnings : List Warning
deriving DecidableEq

/-- `_calc_general_accommodation` (src lines 182-233). -/
def calc_general_accommodation (c_level : CLevel) (expense_type : ExpenseType)
    (nights : ℤ) (actual_cost : ℚ) (room_type : RoomType) (manual_rate : ℚ)
    (warnings : List Warning) : AccommodationResult :=
  match expense_type with
  | .lump_sum =>
    let rate := if manual_rate > 0 then manual_rate else ACCOM_GENERAL_lump_sum c_level
    let reimbursable := rate * (nights : ℚ)
    { kind := .lump_sum
      nights := nights
      rate_per_night := rate
      allowed_per_night := rate
      total_allowed := some reimbursable
      total_ceiling := none
      actual_cost := none
      reimbursable_amount := reimbursable
      is_approved := true
      room_type := none
      trip_type := .general
      training_venue := none
      warnings := warnings }
  | .actual =>
    let ceiling := ACCOM_GENERAL_actual c_level room_type
    let total_ceiling := ceiling * (nights : ℚ)
    let reimbursable := min actual_cost total_ceiling
    let is_approved := decide (actual_cost ≤ total_ceiling)
    let warnings := warnings ++ [Warning.receiptFolio]
    let warnings := if is_approved then warnings else warnings ++ [Warning.exceedsCeiling]
    { kind := .actual
      nights := nights
      rate_per_night := ceiling
      allowed_per_night := ceiling
      total_allowed := none
      total_ceiling := some total_ceiling
      actual_cost := some actual_cost
      reimbursable_amount := reimbursable
      is_approved := is_approved
      room_type := some room_type
      trip_type := .general
      training_venue := none
      warnings := warnings }

/-- `_calc_training_accommodation` (src lines 238-350). -/
def calc_training_accommodation (c_level : CLevel) (expense_type : ExpenseType)
    (nights : ℤ) (actual_cost : ℚ) (room_type : RoomType)
    (training_venue : TrainingVenue) (manual_rate : ℚ)
    (warnings : List Warning) : AccommodationResult :=
  match training_venue with
  | .state =>
    let warnings := warnings ++ [Warning.stateVenueNote]
    match expense_type with
    | .lump_sum =>
      let rate := if manual_rate > 0 then manual_rate else ACCOM_GENERAL_lump_sum c_level
      let reimbursable := rate * (nights : ℚ)
      { kind := .lump_sum
        nights := nights
        rate_per_night := rate
        allowed_per_night := rate
        total_allowed := some reimbursable
        total_ceiling := none
        actual_cost := none
        reimbursable_amount := reimbursable
        is_approved := true
        room_type := none
        trip_type := .training
        training_venue := some .state
        warnings := warnings }
    | .actual =>
      let ceiling := ACCOM_GENERAL_actual c_level room_type
      let total_ceiling := ceiling * (nights : ℚ)
      let reimbursable := min actual_cost total_ceiling
      let is_approved := decide (actual_cost ≤ total_ceiling)
      let warnings := warnings ++ [Warning.receiptFolio]
      let warnings := if is_approved then warnings else warnings ++ [Warning.exceedsCeiling]
      { kind := .actual
        nights := nights
        rate_per_night := ceiling
        allowed_per_night := ceiling
        total_allowed := none
        total_ceiling := some total_ceiling
        actual_cost := some actual_cost
        reimbursable_amount := reimbursable
        is_approved := is_approved
        room_type := some room_type
        trip_type := .training
        training_venue := some .state
        warnings := warnings }
  | .privateVenue =>
    let ceiling := ACCOM_TRAINING_PRIVATE c_level room_type
    let warnings :=
      if c_level = .c1c8 ∧ room_type = .single then warnings ++ [Warning.juniorSingleNote]
      else warnings
    let warnings := warnings ++ [Warning.receiptFolio]
    match expense_type with
    | .lump_sum =>
      let rate := ceiling
      let reimbursable := rate * (nights : ℚ)
      { kind := .lump_sum
        nights := nights
        rate_per_night := rate
        allowed_per_night := rate
        total_allowed := some reimbursable
        total_ceiling := none
        actual_cost := none
        reimbursable_amount := reimbursable
        is_approved := true
        room_type := some room_type
        trip_type := .training
        training_venue := some .privateVenue
        warnings := warnings }
    | .actual =>
      let total_ceiling := ceiling * (nights : ℚ)
      let reimbursable := min actual_cost total_ceiling
      let is_approved := decide (actual_cost ≤ total_ceiling)
      let warnings := if is_approved then warnings else warnings ++ [Warning.exceedsCeiling]
      { kind := .actual
        nights := nights
        rate_per_night := ceiling
        allowed_per_night := ceiling
        total_allowed := none
        total_ceiling := some total_ceiling
        actual_cost := some actual_cost
        reimbursable_amount := reimbursable
        is_approved := is_approved
        room_type := some room_type
        trip_type := .training
        training_venue := some .privateVenue
        warnings := warnings }

/-- `validate_accommodation` (src lines 116-177). -/
def validate_accommodation (c_level : CLevel) (expense_type : ExpenseType)
    (nights : ℤ) (actual_cost : ℚ) (room_type : RoomType)
    (is_vehicle_sleep : Bool) (manual_rate : ℚ)
    (trip_type : TripType) (training_venue : TrainingVenue) : AccommodationResult :=
  if is_vehicle_sleep then
    { kind := .vehicle_sleep
      nights := 0
      rate_per_night := 0
      allowed_per_night := 0
      total_allowed := some 0
      total_ceiling := none
      actual_cost := none
      reimbursable_amount := 0
      is_approved := true
      room_type := none
      trip_type := trip_type
      training_venue := none
      warnings := [] }
  else
    match trip_type with
    | .general =>
        calc_general_accommodation c_level expense_type nights actual_cost room_type
          manual_rate []
    | .training =>
        calc_training_accommodation c_level expense_type nights actual_cost room_type
          training_venue manual_rate []

example :
    (validate_accommodation .c1c8 .actual 2 4000 .single false 0 .general
      .privateVenue).reimbursable_amount = 3000 := by
  norm_num [validate_accommodation, calc_general_accommodation, ACCOM_GENERAL_actual]

example :
    (validate_accommodation .c1c8 .actual 2 4000 .single false 0 .general
      .privateVenue).warnings = [Warning.receiptFolio, Warning.exceedsCeiling] := by
  norm_num [validate_accommodation, calc_general_accommodation, ACCOM_GENERAL_actual]

example :
    (validate_accommodation .c9c11 .lump_sum 3 0 .double false 999 .training
      .privateVenue).reimbursable_amount = 4500 := by
  norm_num [validate_accommodation, calc_training_accommodation, ACCOM_TRAINING_PRIVATE]

/-- Vehicle kinds of `calculate_transportation`. -/
inductive VehicleType
  | private_car
  | motorcycle
deriving DecidableEq

/-- Result dictionary of `calculate_transportation` (its `"type"` key is the
`kind` field). -/
structure TransportResult where
  kind : VehicleType
  distance_km : ℚ
  rate : ℚ
  reimbursable_amount : ℚ
deriving DecidableEq

/-- `calculate_transportation` (src lines 352-367). -/
def calculate_transportation (vehicle_type : VehicleType) (distance_km : ℚ) :
    TransportResult :=
  let rate : ℚ := if vehicle_type = .private_car then 4 else 2
  { kind := vehicle_type
    distance_km := distance_km
    rate := rate
    reimbursable_amount := distance_km * rate }

/-- Route types of `validate_taxi`. -/
inductive RouteType
  | intraprivince
  | cross_bkk
  | cross_other
deriving DecidableEq

/-- Result dictionary of `validate_taxi`.  The source initialises the limit
to `float('inf')` and reports `"Actual"` in that case; the infinite limit is
modelled as `none`. -/
structure TaxiValidationResult where
  route_type : RouteType
  actual_cost : ℚ
  limit : Option ℚ
  reimbursable_amount : ℚ
deriving DecidableEq

/-- `validate_taxi` (src lines 369-390).  `min actual_cost float('inf')`
is `actual_cost`, hence the `none` branch below. -/
def validate_taxi (route_type : RouteType) (actual_cost : ℚ) :
    TaxiValidationResult :=
  let limit : Option ℚ :=
    if route_type = .cross_bkk then some 600
    else if route_type = .cross_other then some 500
    else none
  let reimbursable :=
    match limit with
    | none => actual_cost
    | some l => min actual_cost l
  { route_type := route_type
    actual_cost := actual_cost
    limit := limit
    reimbursable_amount := reimbursable }

/-- The value held by the local `fare` of `calculate_taxi_meter` after the
tiered distance cascade (src lines 403-441), exactly as the source nests
it: a base of 35 for the first kilometre, then the remaining distance
consumed greedily from the successive bands. -/
def taxi_meter_distance_fare (distance_km : ℚ) : ℚ :=
  let fare : ℚ := 35
  let remaining_dist := distance_km - 1
  if remaining_dist ≤ 0 then fare
  else
    let dist_step := min remaining_dist 9
    let fare := fare + dist_step * (13 / 2)
    let remaining_dist := remaining_dist - dist_step
    if remaining_dist > 0 then
      let dist_step := min remaining_dist 10
      let fare := fare + dist_step * 7
      let remaining_dist := remaining_dist - dist_step
      if remaining_dist > 0 then
        let dist_step := min remaining_dist 20
        let fare := fare + dist_step * 8
        let remaining_dist := remaining_dist - dist_step
        if remaining_dist > 0 then
          let dist_step := min remaining_dist 20
          let fare := fare + dist_step * (17 / 2)
          let remaining_dist := remaining_dist - dist_step
          if remaining_dist > 0 then
            let dist_step := min remaining_dist 20
            let fare := fare + dist_step * 9
            let remaining_dist := remaining_dist - dist_step
            if remaining_dist > 0 then fare + remaining_dist * (21 / 2)
            else fare
          else fare
        else fare
      else fare
    else fare

/-- The local `total_fare` value computed by `calculate_taxi_meter`
(src lines 403-453): the tiered distance cascade, then the traffic
surcharge `traffic_minutes * 3.0` (src line 444) and the two flat
surcharges (src lines 447-453). -/
def taxi_meter_total_fare (distance_km : ℚ) (traffic_minutes : ℤ)
    (booking_fee airport_surcharge : Bool) : ℚ :=
  let fare := taxi_meter_distance_fare distance_km + (traffic_minutes : ℚ) * 3
  let surcharges : ℚ :=
    (if booking_fee then 20 else 0) + (if airport_surcharge then 50 else 0)
  fare + surcharges

/-- Result dictionary that `calculate_taxi_meter` attempts to build
(src lines 459-465). -/
structure TaxiMeterResult where
  distance_km : ℚ
  fare_distance : ℚ
  fare_traffic : ℚ
  surcharges : ℚ
  total_fare : ℚ
deriving DecidableEq

/-- `calculate_taxi_meter` (src lines 392-465).  After computing the local
`total_fare` the function builds its return dictionary from the name
`fare_distance` (src line 461), which is assigned nowhere in the function
nor at module scope, so every call raises `NameError` before returning;
the raised exception is modelled as `none`. -/
def calculate_taxi_meter (distance_km : ℚ) (traffic_minutes : ℤ)
    (booking_fee airport_surcharge : Bool) : Option TaxiMeterResult :=
  let _total_fare :=
    taxi_meter_total_fare distance_km traffic_minutes booking_fee airport_surcharge
  none

/-- Result dictionary of `calculate_training_meal_allowance`. -/
structure MealAllowanceResult where
  training_type : TrainingType
  venue : TrainingVenue
  meal_rate : ℚ
  snack_rate : ℚ
  meal_count : ℤ
  snack_count : ℤ
  meal_total : ℚ
  snack_total : ℚ
  grand_total : ℚ
deriving DecidableEq

/-- `calculate_training_meal_allowance` (src lines 467-494). -/
def calculate_training_meal_allowance (c_level : CLevel) (venue : TrainingVenue)
    (meal_count snack_count : ℤ) : MealAllowanceResult :=
  let training_type := if c_level = .c9c11 then TrainingType.typeA else TrainingType.typeB
  let rates := TRAINING_RATES venue training_type
  let meal_total := (meal_count : ℚ) * rates.1
  let snack_total := (snack_count : ℚ) * rates.2
  { training_type := training_type
    venue := venue
    meal_rate := rates.1
    snack_rate := rates.2
    meal_count := meal_count
    snack_count := snack_count
    meal_total := meal_total
    snack_total := snack_total
    grand_total := meal_total + snack_total }

example : taxi_meter_total_fare 0 0 false false = 35 := by
  norm_num [taxi_meter_total_fare, taxi_meter_distance_fare]

example : taxi_meter_total_fare 11 0 false false = 201 / 2 := by
  norm_num [taxi_meter_total_fare, taxi_meter_distance_fare]

example :
    (calculate_training_meal_allowance .c9c11 .privateVenue 2 1).grand_total = 1450 := by
  norm_num [calculate_training_meal_allowance, TRAINING_RATES]

/-- The part of `x` that falls inside a band of length `len`, i.e. `x`
clamped to `[0, len]`. -/
def clampLen (x len : ℚ) : ℚ := min (max x 0) len

/-- The taxi distance fare written from the spec's words: a flat 35 for the
first kilometre, then the remaining distance consumed in order from bands of
length 9, 10, 20, 20, 20 km at rates 6.5, 7.0, 8.0, 8.5, 9.0, and any
remaining distance beyond those bands at 10.5/km. -/
def spec_distance_fare (distance_km : ℚ) : ℚ :=
  let r := distance_km - 1
  35 + clampLen r 9 * (13 / 2) + clampLen (r - 9) 10 * 7 + clampLen (r - 19) 20 * 8
    + clampLen (r - 39) 20 * (17 / 2) + clampLen (r - 59) 20 * 9
    + max (r - 79) 0 * (21 / 2)

/-- Total taxi fare written from the spec's words: tiered distance fare plus
`traffic_minutes × 3.0`, plus 20 for app booking and 50 for airport
pickup. -/
def spec_taxi_total_fare (distance_km : ℚ) (traffic_minutes : ℤ)
    (booking_fee airport_surcharge : Bool) : ℚ :=
  spec_distance_fare distance_km + (traffic_minutes : ℚ) * 3
    + (if booking_fee then 20 else 0) + (if airport_surcharge then 50 else 0)

set_option maxHeartbeats 1600000 in
/-- The source's nested band cascade computes exactly the spec's clamped
band formula. -/
theorem taxi_meter_distance_fare_eq_spec (d : ℚ) :
    taxi_meter_distance_fare d = spec_distance_fare d := by
  simp only [taxi_meter_distance_fare, spec_distance_fare, clampLen]
  rcases le_or_lt (d - 1) 0 with h0 | h0
  · simp only [show max (d - 1) 0 = 0 from max_eq_right h0,
      show max (d - 1 - 9) 0 = 0 from max_eq_right (by linarith),
      show max (d - 1 - 19) 0 = 0 from max_eq_right (by linarith),
      show max (d - 1 - 39) 0 = 0 from max_eq_right (by linarith),
      show max (d - 1 - 59) 0 = 0 from max_eq_right (by linarith),
      show max (d - 1 - 79) 0 = 0 from max_eq_right (by linarith),
      show min (0 : ℚ) 9 = 0 from min_eq_left (by norm_num),
      show min (0 : ℚ) 10 = 0 from min_eq_left (by norm_num),
      show min (0 : ℚ) 20 = 0 from min_eq_left (by norm_num)]
    split_ifs <;> linarith
  rcases le_or_lt (d - 1) 9 with h1 | h1
  · simp only [show max (d - 1) 0 = d - 1 from max_eq_left h0.le,
      show min (d - 1) 9 = d - 1 from min_eq_left h1,
      show max (d - 1 - 9) 0 = 0 from max_eq_right (by linarith),
      show max (d - 1 - 19) 0 = 0 from max_eq_right (by linarith),
      show max (d - 1 - 39) 0 = 0 from max_eq_right (by linarith),
      show max (d - 1 - 59) 0 = 0 from max_eq_right (by linarith),
      show max (d - 1 - 79) 0 = 0 from max_eq_right (by linarith),
      show min (0 : ℚ) 10 = 0 from min_eq_left (by norm_num),
      show min (0 : ℚ) 20 = 0 from min_eq_left (by norm_num)]
    split_ifs <;> linarith
  rcases le_or_lt (d - 1) 19 with h2 | h2
  · simp only [show max (d - 1) 0 = d - 1 from max_eq_left h0.le,
      show min (d - 1) 9 = 9 from min_eq_right (by linarith),
      show max (d - 1 - 9) 0 = d - 1 - 9 from max_eq_left (by linarith),
      show min (d - 1 - 9) 10 = d - 1 - 9 from min_eq_left (by linarith),
      show max (d - 1 - 19) 0 = 0 from max_eq_right (by linarith),
      show max (d - 1 - 39) 0 = 0 from max_eq_right (by linarith),
      show max (d - 1 - 59) 0 = 0 from max_eq_right (by linarith),
      show max (d - 1 - 79) 0 = 0 from max_eq_right (by linarith),
      show min (0 : ℚ) 20 = 0 from min_eq_left (by norm_num)]
    split_ifs <;> linarith
  rcases le_or_lt (d - 1) 39 with h3 | h3
  · simp only [show max (d - 1) 0 = d - 1 from max_eq_left h0.le,
      show min (d - 1) 9 = 9 from min_eq_right (by linarith),
      show max (d - 1 - 9) 0 = d - 1 - 9 from max_eq_left (by linarith),
      show min (d - 1 - 9) 10 = 10 from min_eq_right (by linarith),
      show min (d - 1 - 9 - 10) 20 = d - 1 - 9 - 10 from min_eq_left (by linarith),
      show max (d - 1 - 19) 0 = d - 1 - 19 from max_eq_left (by linarith),
      show min (d - 1 - 19) 20 = d - 1 - 19 from min_eq_left (by linarith),
      show max (d - 1 - 39) 0 = 0 from max_eq_right (by linarith),
      show max (d - 1 - 59) 0 = 0 from max_eq_right (by linarith),
      show max (d - 1 - 79) 0 = 0 from max_eq_right (by linarith),
      show min (0 : ℚ) 20 = 0 from min_eq_left (by norm_num)]
    split_ifs <;> linarith
  rcases le_or_lt (d - 1) 59 with h4 | h4
  · simp only [show max (d - 1) 0 = d - 1 from max_eq_left h0.le,
      show min (d - 1) 9 = 9 from min_eq_right (by linarith),
      show max (d - 1 - 9) 0 = d - 1 - 9 from max_eq_left (by linarith),
      show min (d - 1 - 9) 10 = 10 from min_eq_right (by linarith),
      show min (d - 1 - 9 - 10) 20 = 20 from min_eq_right (by linarith),
      show min (d - 1 - 9 - 10 - 20) 20 = d - 1 - 9 - 10 - 20 from min_eq_left (by linarith),
      show max (d - 1 - 19) 0 = d - 1 - 19 from max_eq_left (by linarith),
      show min (d - 1 - 19) 20 = 20 from min_eq_right (by linarith),
      show max (d - 1 - 39) 0 = d - 1 - 39 from max_eq_left (by linarith),
      show min (d - 1 - 39) 20 = d - 1 - 39 from min_eq_left (by linarith),
      show max (d - 1 - 59) 0 = 0 from max_eq_right (by linarith),
      show max (d - 1 - 79) 0 = 0 from max_eq_right (by linarith),
      show min (0 : ℚ) 20 = 0 from min_eq_left (by norm_num)]
    split_ifs <;> linarith
  rcases le_or_lt (d - 1) 79 with h5 | h5
  · simp only [show max (d - 1) 0 = d - 1 from max_eq_left h0.le,
      show min (d - 1) 9 = 9 from min_eq_right (by linarith),
      show max (d - 1 - 9) 0 = d - 1 - 9 from max_eq_left (by linarith),
      show min (d - 1 - 9) 10 = 10 from min_eq_right (by linarith),
      show min (d - 1 - 9 - 10) 20 = 20 from min_eq_right (by linarith),
      show min (d - 1 - 9 - 10 - 20) 20 = 20 from min_eq_right (by linarith),
      show min (d - 1 - 9 - 10 - 20 - 20) 20 = d - 1 - 9 - 10 - 20 - 20 from
        min_eq_left (by linarith),
      show max (d - 1 - 19) 0 = d - 1 - 19 from max_eq_left (by linarith),
      show min (d - 1 - 19) 20 = 20 from min_eq_right (by linarith),
      show max (d - 1 - 39) 0 = d - 1 - 39 from max_eq_left (by linarith),
      show min (d - 1 - 39) 20 = 20 from min_eq_right (by linarith),
      show max (d - 1 - 59) 0 = d - 1 - 59 from max_eq_left (by linarith),
      show min (d - 1 - 59) 20 = d - 1 - 59 from min_eq_left (by linarith),
      show max (d - 1 - 79) 0 = 0 from max_eq_right (by linarith)]
    split_ifs <;> linarith
  simp only [show max (d - 1) 0 = d - 1 from max_eq_left h0.le,
    show min (d - 1) 9 = 9 from min_eq_right (by linarith),
    show max (d - 1 - 9) 0 = d - 1 - 9 from max_eq_left (by linarith),
    show min (d - 1 - 9) 10 = 10 from min_eq_right (by linarith),
    show min (d - 1 - 9 - 10) 20 = 20 from min_eq_right (by linarith),
    show min (d - 1 - 9 - 10 - 20) 20 = 20 from min_eq_right (by linarith),
    show min (d - 1 - 9 - 10 - 20 - 20) 20 = 20 from min_eq_right (by linarith),
    show max (d - 1 - 19) 0 = d - 1 - 19 from max_eq_left (by linarith),
    show min (d - 1 - 19) 20 = 20 from min_eq_right (by linarith),
    show max (d - 1 - 39) 0 = d - 1 - 39 from max_eq_left (by linarith),
    show min (d - 1 - 39) 20 = 20 from min_eq_right (by linarith),
    show max (d - 1 - 59) 0 = d - 1 - 59 from max_eq_left (by linarith),
    show min (d - 1 - 59) 20 = 20 from min_eq_right (by linarith),
    show max (d - 1 - 79) 0 = d - 1 - 79 from max_eq_left (by linarith)]
  split_ifs <;> linarith

/-- The entitlement-days rule as the spec words it: overnight trips take
`⌊s / 86400⌋` days plus one more exactly when the remainder exceeds 43200
seconds; day trips take 1 / 0.5 / 0 days at the strict 12h / 6h
thresholds. -/
def spec_days_count (total_seconds : ℚ) (is_overnight : Bool) : ℚ :=
  if is_overnight then
    (⌊total_seconds / 86400⌋ : ℚ) +
      (if total_seconds - 86400 * ⌊total_seconds / 86400⌋ > 43200 then 1 else 0)
  else
    if total_seconds > 43200 then 1
    else if total_seconds > 21600 then 1 / 2
    else 0

/-- Unfolding lemma for the `days_count` field of `calculate_per_diem`. -/
lemma per_diem_days_count_def (st en : ℚ) (ov : Bool) (cl : CLevel) (m : ℤ) :
    (calculate_per_diem st en ov cl m).days_count =
      if ov = true then
        (if en - st - 24 * 3600 * ⌊(en - st) / (24 * 3600)⌋ > 12 * 3600
          then ((⌊(en - st) / (24 * 3600)⌋ + 1 : ℤ) : ℚ)
          else ((⌊(en - st) / (24 * 3600)⌋ : ℤ) : ℚ))
      else if en - st > 12 * 3600 then 1
      else if en - st > 6 * 3600 then 1 / 2
      else 0 := rfl

/-- Unfolding lemma for the `base_amount` field of `calculate_per_diem`. -/
lemma per_diem_base_def (st en : ℚ) (ov : Bool) (cl : CLevel) (m : ℤ) :
    (calculate_per_diem st en ov cl m).base_amount =
      (calculate_per_diem st en ov cl m).days_count * PER_DIEM_RATES cl := rfl

/-- Unfolding lemma for the `deduction` field of `calculate_per_diem`. -/
lemma per_diem_deduction_def (st en : ℚ) (ov : Bool) (cl : CLevel) (m : ℤ) :
    (calculate_per_diem st en ov cl m).deduction =
      if m > 0 then PER_DIEM_RATES cl / 3 * (m : ℚ) else 0 := rfl

/-- Unfolding lemma for the `net_amount` field of `calculate_per_diem`. -/
lemma per_diem_net_def (st en : ℚ) (ov : Bool) (cl : CLevel) (m : ℤ) :
    (calculate_per_diem st en ov cl m).net_amount =
      if m > 0 then
        max 0 ((calculate_per_diem st en ov cl m).base_amount
          - (calculate_per_diem st en ov cl m).deduction)
      else (calculate_per_diem st en ov cl m).base_amount := rfl

/-- The entitlement days are never negative once the travel window is
ordered. -/
lemma per_diem_days_count_nonneg (st en : ℚ) (h : st ≤ en) (ov : Bool)
    (cl : CLevel) (m : ℤ) : 0 ≤ (calculate_per_diem st en ov cl m).days_count := by
  have hfloor : (0 : ℚ) ≤ (⌊(en - st) / (24 * 3600)⌋ : ℤ) := by
    exact_mod_cast Int.floor_nonneg.mpr (div_nonneg (by linarith) (by norm_num))
  rw [per_diem_days_count_def]
  cases ov
  · simp only [Bool.false_eq_true, if_false]
    split_ifs <;> norm_num
  · simp only [if_true]
    split_ifs <;> push_cast at hfloor ⊢ <;> linarith

/-- The per-diem net amount is never negative once the travel window is
ordered. -/
lemma per_diem_net_nonneg (st en : ℚ) (h : st ≤ en) (ov : Bool)
    (cl : CLevel) (m : ℤ) : 0 ≤ (calculate_per_diem st en ov cl m).net_amount := by
  have hdays := per_diem_days_count_nonneg st en h ov cl m
  have hrate : 0 ≤ PER_DIEM_RATES cl := by cases cl <;> norm_num [PER_DIEM_RATES]
  rw [per_diem_net_def, per_diem_base_def]
  rcases lt_or_le 0 m with hm | hm
  · rw [if_pos hm]
    exact le_max_left 0 _
  · rw [if_neg (not_lt.mpr hm)]
    exact mul_nonneg hdays hrate

/-- C2: whenever `is_vehicle_sleep` is set, `validate_accommodation`
returns reimbursable 0, nights 0 and approval, whatever the other
arguments are. -/
theorem C2_vehicle_sleep_override (cl : CLevel) (et : ExpenseType) (nights : ℤ)
    (ac : ℚ) (rt : RoomType) (mr : ℚ) (tt : TripType) (tv : TrainingVenue) :
    (validate_accommodation cl et nights ac rt true mr tt tv).reimbursable_amount = 0 ∧
    (validate_accommodation cl et nights ac rt true mr tt tv).nights = 0 ∧
    (validate_accommodation cl et nights ac rt true mr tt tv).is_approved = true := by
  refine ⟨?_, ?_, ?_⟩ <;> simp [validate_accommodation]

/-- C10: `validate_taxi` caps the reimbursable amount at 600 for the
"cross_bkk" route, at 500 for "cross_other", and reimburses the full
actual cost for any other route type. -/
theorem C10_validate_taxi_route_caps (ac : ℚ) :
    (validate_taxi .cross_bkk ac).reimbursable_amount = min ac 600 ∧
    (validate_taxi .cross_bkk ac).limit = some 600 ∧
    (validate_taxi .cross_other ac).reimbursable_amount = min ac 500 ∧
    (validate_taxi .cross_other ac).limit = some 500 ∧
    (validate_taxi .intraprivince ac).reimbursable_amount = ac ∧
    (validate_taxi .intraprivince ac).limit = none := by
  refine ⟨?_, ?_, ?_, ?_, ?_, ?_⟩ <;> simp [validate_taxi]

/-- C8: `calculate_training_meal_allowance` classifies seniors as Type A
and juniors as Type B, reads the `(meal, snack)` rates from the
venue×type table, and returns the per-category products and their sum;
in particular Senior / private venue / 2 meals / 1 snack gives
1400 + 50 = 1450. -/
theorem C8_training_meal_allowance (cl : CLevel) (v : TrainingVenue)
    (mc sc : ℤ) (hmc : 0 ≤ mc) (hsc : 0 ≤ sc) :
    (calculate_training_meal_allowance cl v mc sc).training_type
        = (if cl = .c9c11 then TrainingType.typeA else TrainingType.typeB) ∧
    (calculate_training_meal_allowance cl v mc sc).meal_rate
        = (TRAINING_RATES v (calculate_training_meal_allowance cl v mc sc).training_type).1 ∧
    (calculate_training_meal_allowance cl v mc sc).snack_rate
        = (TRAINING_RATES v (calculate_training_meal_allowance cl v mc sc).training_type).2 ∧
    TRAINING_RATES .state .typeA = (400, 35) ∧
    TRAINING_RATES .state .typeB = (200, 35) ∧
    TRAINING_RATES .privateVenue .typeA = (700, 50) ∧
    TRAINING_RATES .privateVenue .typeB = (400, 50) ∧
    (calculate_training_meal_allowance cl v mc sc).meal_total
        = (mc : ℚ) * (calculate_training_meal_allowance cl v mc sc).meal_rate ∧
    (calculate_training_meal_allowance cl v mc sc).snack_total
        = (sc : ℚ) * (calculate_training_meal_allowance cl v mc sc).snack_rate ∧
    (calculate_training_meal_allowance cl v mc sc).grand_total
        = (calculate_training_meal_allowance cl v mc sc).meal_total
          + (calculate_training_meal_allowance cl v mc sc).snack_total ∧
    (calculate_training_meal_allowance .c9c11 .privateVenue 2 1).meal_total = 1400 ∧
    (calculate_training_meal_allowance .c9c11 .privateVenue 2 1).snack_total = 50 ∧
    (calculate_training_meal_allowance .c9c11 .privateVenue 2 1).grand_total = 1450 := by
  refine ⟨?_, ?_, ?_, ?_, ?_, ?_, ?_, ?_, ?_, ?_, ?_, ?_, ?_⟩ <;>
    norm_num [calculate_training_meal_allowance, TRAINING_RATES]

/-- Closed instance of `C8_training_meal_allowance`. -/
theorem C8_training_meal_allowance_witness :
    (calculate_training_meal_allowance .c9c11 .privateVenue 2 1).grand_total = 1450 :=
  (C8_training_meal_allowance .c9c11 .privateVenue 2 1 (by norm_num) (by norm_num)).2.2.2.2.2.2.2.2.2.2.2.2

/-- C5: for a Training trip at a private facility paid as a lump sum, the
nightly rate is always the private-facility ceiling for the grade and room
type — the manual rate override is ignored — the reimbursable amount is
rate × nights, and the claim is approved. -/
theorem C5_training_private_lump_sum (cl : CLevel) (rt : RoomType) (nights : ℤ)
    (h : 0 ≤ nights) (ac mr : ℚ) :
    (validate_accommodation cl .lump_sum nights ac rt false mr .training
        .privateVenue).rate_per_night = ACCOM_TRAINING_PRIVATE cl rt ∧
    (validate_accommodation cl .lump_sum nights ac rt false mr .training
        .privateVenue).reimbursable_amount = ACCOM_TRAINING_PRIVATE cl rt * (nights : ℚ) ∧
    (validate_accommodation cl .lump_sum nights ac rt false mr .training
        .privateVenue).is_approved = true ∧
    ACCOM_TRAINING_PRIVATE .c1c8 .single = 1600 ∧
    ACCOM_TRAINING_PRIVATE .c1c8 .double = 1000 ∧
    ACCOM_TRAINING_PRIVATE .c9c11 .single = 2700 ∧
    ACCOM_TRAINING_PRIVATE .c9c11 .double = 1500 := by
  refine ⟨?_, ?_, ?_, ?_, ?_, ?_, ?_⟩ <;>
    simp [validate_accommodation, calc_training_accommodation, ACCOM_TRAINING_PRIVATE]

/-- Closed instance of `C5_training_private_lump_sum`. -/
theorem C5_training_private_lump_sum_witness :
    (validate_accommodation .c1c8 .lump_sum 3 0 .single false 999 .training
        .privateVenue).reimbursable_amount = 4800 := by
  have h := (C5_training_private_lump_sum .c1c8 .single 3 (by norm_num) 0 999).2.1
  rw [h]
  norm_num [ACCOM_TRAINING_PRIVATE]

/-- C3: `calculate_per_diem` counts entitlement days exactly as the spec
states: overnight trips get `⌊seconds / 86400⌋` days plus one more exactly
when the remainder exceeds 43200 seconds; day trips get 1 / 0.5 / 0 days at
strict 12h and 6h thresholds, with the spec's boundary examples. -/
theorem C3_per_diem_day_count (st en : ℚ) (h : st < en) (ov : Bool)
    (cl : CLevel) (m : ℤ) :
    (calculate_per_diem st en ov cl m).days_count = spec_days_count (en - st) ov ∧
    (calculate_per_diem 0 86400 true cl m).days_count = 1 ∧
    (calculate_per_diem 0 129601 true cl m).days_count = 2 ∧
    (calculate_per_diem 0 129599 true cl m).days_count = 1 ∧
    (calculate_per_diem 0 43200 false cl m).days_count = 1 / 2 ∧
    (calculate_per_diem 0 21600 false cl m).days_count = 0 := by
  refine ⟨?_, ?_, ?_, ?_, ?_, ?_⟩
  · simp only [per_diem_days_count_def, spec_days_count]
    norm_num
    cases ov
    · simp
    · simp only [if_true]
      split_ifs <;> push_cast <;> linarith
  all_goals norm_num [calculate_per_diem]

/-- Closed instance of `C3_per_diem_day_count`: a 24h overnight trip is one
entitlement day. -/
theorem C3_per_diem_day_count_witness :
    (calculate_per_diem 0 86400 true .c1c8 0).days_count = 1 :=
  (C3_per_diem_day_count 0 86400 (by norm_num) true .c1c8 0).2.1

/-- C4: for every grade and every nonnegative meal count, the per-diem
deduction is `(rate / 3) × meals` and the net amount is
`max 0 (base − deduction)`; in particular Junior with one day and four
provided meals has deduction 320 > base 240 and net 0. -/
theorem C4_meal_deduction_clamp (st en : ℚ) (h : st < en) (ov : Bool)
    (cl : CLevel) (m : ℤ) (hm : 0 ≤ m) :
    (calculate_per_diem st en ov cl m).deduction = PER_DIEM_RATES cl / 3 * (m : ℚ) ∧
    (calculate_per_diem st en ov cl m).net_amount =
      max 0 ((calculate_per_diem st en ov cl m).base_amount
        - (calculate_per_diem st en ov cl m).deduction) ∧
    (calculate_per_diem 0 86400 true .c1c8 4).deduction = 320 ∧
    (calculate_per_diem 0 86400 true .c1c8 4).base_amount = 240 ∧
    (calculate_per_diem 0 86400 true .c1c8 4).net_amount = 0 := by
  have hbase : 0 ≤ (calculate_per_diem st en ov cl m).base_amount := by
    rw [per_diem_base_def]
    exact mul_nonneg (per_diem_days_count_nonneg st en h.le ov cl m)
      (by cases cl <;> norm_num [PER_DIEM_RATES])
  refine ⟨?_, ?_, ?_, ?_, ?_⟩
  · rw [per_diem_deduction_def]
    rcases eq_or_lt_of_le hm with hm0 | hmpos
    · rw [if_neg (not_lt.mpr (le_of_eq hm0.symm)), ← hm0]
      norm_num
    · rw [if_pos hmpos]
  · rcases eq_or_lt_of_le hm with hm0 | hmpos
    · have hnot : ¬ m > 0 := not_lt.mpr (le_of_eq hm0.symm)
      rw [per_diem_net_def, if_neg hnot, per_diem_deduction_def, if_neg hnot, sub_zero]
      exact (max_eq_right hbase).symm
    · rw [per_diem_net_def, if_pos hmpos]
  all_goals norm_num [calculate_per_diem, PER_DIEM_RATES]

/-- Closed instance of `C4_meal_deduction_clamp`: the clamped-at-zero
example. -/
theorem C4_meal_deduction_clamp_witness :
    (calculate_per_diem 0 86400 true .c1c8 4).net_amount = 0 :=
  (C4_meal_deduction_clamp 0 86400 (by norm_num) true .c1c8 4 (by norm_num)).2.2.2.2

/-- Vehicle-sleep branch: the reimbursable amount is 0. -/
lemma va_vehicle_reimb (cl : CLevel) (et : ExpenseType) (n : ℤ) (ac : ℚ)
    (rt : RoomType) (mr : ℚ) (tt : TripType) (tv : TrainingVenue) :
    (validate_accommodation cl et n ac rt true mr tt tv).reimbursable_amount = 0 := rfl

/-- Vehicle-sleep branch: no total ceiling is reported. -/
lemma va_vehicle_ceiling (cl : CLevel) (et : ExpenseType) (n : ℤ) (ac : ℚ)
    (rt : RoomType) (mr : ℚ) (tt : TripType) (tv : TrainingVenue) :
    (validate_accommodation cl et n ac rt true mr tt tv).total_ceiling = none := rfl

/-- General lump-sum branch: reimbursable = (manual override or table rate) × nights. -/
lemma va_general_lump_reimb (cl : CLevel) (n : ℤ) (ac : ℚ) (rt : RoomType)
    (mr : ℚ) (tv : TrainingVenue) :
    (validate_accommodation cl .lump_sum n ac rt false mr .general tv).reimbursable_amount
      = (if mr > 0 then mr else ACCOM_GENERAL_lump_sum cl) * (n : ℚ) := rfl

/-- General lump-sum branch: no total ceiling is reported. -/
lemma va_general_lump_ceiling (cl : CLevel) (n : ℤ) (ac : ℚ) (rt : RoomType)
    (mr : ℚ) (tv : TrainingVenue) :
    (validate_accommodation cl .lump_sum n ac rt false mr .general tv).total_ceiling
      = none := rfl

/-- General actual-cost branch: reimbursable = min(actual, ceiling × nights). -/
lemma va_general_actual_reimb (cl : CLevel) (n : ℤ) (ac : ℚ) (rt : RoomType)
    (mr : ℚ) (tv : TrainingVenue) :
    (validate_accommodation cl .actual n ac rt false mr .general tv).reimbursable_amount
      = min ac (ACCOM_GENERAL_actual cl rt * (n : ℚ)) := rfl

/-- General actual-cost branch: the reported total ceiling. -/
lemma va_general_actual_ceiling (cl : CLevel) (n : ℤ) (ac : ℚ) (rt : RoomType)
    (mr : ℚ) (tv : TrainingVenue) :
    (validate_accommodation cl .actual n ac rt false mr .general tv).total_ceiling
      = some (ACCOM_GENERAL_actual cl rt * (n : ℚ)) := rfl

/-- Training / state-facility lump-sum branch. -/
lemma va_state_lump_reimb (cl : CLevel) (n : ℤ) (ac : ℚ) (rt : RoomType) (mr : ℚ) :
    (validate_accommodation cl .lump_sum n ac rt false mr .training
        .state).reimbursable_amount
      = (if mr > 0 then mr else ACCOM_GENERAL_lump_sum cl) * (n : ℚ) := rfl

/-- Training / state-facility lump-sum branch: no total ceiling. -/
lemma va_state_lump_ceiling (cl : CLevel) (n : ℤ) (ac : ℚ) (rt : RoomType) (mr : ℚ) :
    (validate_accommodation cl .lump_sum n ac rt false mr .training .state).total_ceiling
      = none := rfl

/-- Training / state-facility actual-cost branch reuses the General ceilings. -/
lemma va_state_actual_reimb (cl : CLevel) (n : ℤ) (ac : ℚ) (rt : RoomType) (mr : ℚ) :
    (validate_accommodation cl .actual n ac rt false mr .training
        .state).reimbursable_amount
      = min ac (ACCOM_GENERAL_actual cl rt * (n : ℚ)) := rfl

/-- Training / state-facility actual-cost branch: the reported total ceiling. -/
lemma va_state_actual_ceiling (cl : CLevel) (n : ℤ) (ac : ℚ) (rt : RoomType) (mr : ℚ) :
    (validate_accommodation cl .actual n ac rt false mr .training .state).total_ceiling
      = some (ACCOM_GENERAL_actual cl rt * (n : ℚ)) := rfl

/-- Training / private-facility lump-sum branch: the ceiling itself is the rate. -/
lemma va_private_lump_reimb (cl : CLevel) (n : ℤ) (ac : ℚ) (rt : RoomType) (mr : ℚ) :
    (validate_accommodation cl .lump_sum n ac rt false mr .training
        .privateVenue).reimbursable_amount
      = ACCOM_TRAINING_PRIVATE cl rt * (n : ℚ) := rfl

/-- Training / private-facility lump-sum branch: no total ceiling. -/
lemma va_private_lump_ceiling (cl : CLevel) (n : ℤ) (ac : ℚ) (rt : RoomType) (mr : ℚ) :
    (validate_accommodation cl .lump_sum n ac rt false mr .training
        .privateVenue).total_ceiling = none := rfl

/-- Training / private-facility actual-cost branch. -/
lemma va_private_actual_reimb (cl : CLevel) (n : ℤ) (ac : ℚ) (rt : RoomType) (mr : ℚ) :
    (validate_accommodation cl .actual n ac rt false mr .training
        .privateVenue).reimbursable_amount
      = min ac (ACCOM_TRAINING_PRIVATE cl rt * (n : ℚ)) := rfl

/-- Training / private-facility actual-cost branch: the reported total ceiling. -/
lemma va_private_actual_ceiling (cl : CLevel) (n : ℤ) (ac : ℚ) (rt : RoomType) (mr : ℚ) :
    (validate_accommodation cl .actual n ac rt false mr .training
        .privateVenue).total_ceiling
      = some (ACCOM_TRAINING_PRIVATE cl rt * (n : ℚ)) := rfl

/-- Unfolding lemma for the private-vehicle compensation amount. -/
lemma calculate_transportation_reimb (v : VehicleType) (dist : ℚ) :
    (calculate_transportation v dist).reimbursable_amount
      = dist * (if v = VehicleType.private_car then 4 else 2) := rfl

/-- Unfolding lemma: taxi validation for the intra-province route. -/
lemma validate_taxi_intraprivince_reimb (ac : ℚ) :
    (validate_taxi .intraprivince ac).reimbursable_amount = ac := rfl

/-- Unfolding lemma: taxi validation for the cross-to-Bangkok route. -/
lemma validate_taxi_cross_bkk_reimb (ac : ℚ) :
    (validate_taxi .cross_bkk ac).reimbursable_amount = min ac 600 := rfl

/-- Unfolding lemma: taxi validation for other cross-province routes. -/
lemma validate_taxi_cross_other_reimb (ac : ℚ) :
    (validate_taxi .cross_other ac).reimbursable_amount = min ac 500 := rfl

/-- Unfolding lemma for the training-meal grand total. -/
lemma training_meal_grand_def (cl : CLevel) (v : TrainingVenue) (mc sc : ℤ) :
    (calculate_training_meal_allowance cl v mc sc).grand_total
      = (mc : ℚ) * (TRAINING_RATES v
            (if cl = CLevel.c9c11 then TrainingType.typeA else TrainingType.typeB)).1
        + (sc : ℚ) * (TRAINING_RATES v
            (if cl = CLevel.c9c11 then TrainingType.typeA else TrainingType.typeB)).2 := rfl

/-- C1: every ActualCost accommodation branch (General,
Training/StateFacility, Training/PrivateFacility) reimburses
`min actual_cost (ceiling × nights)` against its per-night ceiling table,
approves exactly when the actual cost is within the total ceiling, always
warns to attach the receipt/folio, and warns about exceeding the ceiling
exactly when not approved. -/
theorem C1_actual_cost_accommodation (cl : CLevel) (rt : RoomType) (n : ℤ)
    (h : 0 ≤ n) (ac mr : ℚ) (tv : TrainingVenue) :
    ((validate_accommodation cl .actual n ac rt false mr .general tv).reimbursable_amount
        = min ac (ACCOM_GENERAL_actual cl rt * (n : ℚ)) ∧
      ((validate_accommodation cl .actual n ac rt false mr .general tv).is_approved = true
        ↔ ac ≤ ACCOM_GENERAL_actual cl rt * (n : ℚ)) ∧
      Warning.receiptFolio ∈
        (validate_accommodation cl .actual n ac rt false mr .general tv).warnings ∧
      (Warning.exceedsCeiling ∈
          (validate_accommodation cl .actual n ac rt false mr .general tv).warnings
        ↔ ¬ ac ≤ ACCOM_GENERAL_actual cl rt * (n : ℚ))) ∧
    ((validate_accommodation cl .actual n ac rt false mr .training .state).reimbursable_amount
        = min ac (ACCOM_GENERAL_actual cl rt * (n : ℚ)) ∧
      ((validate_accommodation cl .actual n ac rt false mr .training .state).is_approved = true
        ↔ ac ≤ ACCOM_GENERAL_actual cl rt * (n : ℚ)) ∧
      Warning.receiptFolio ∈
        (validate_accommodation cl .actual n ac rt false mr .training .state).warnings ∧
      (Warning.exceedsCeiling ∈
          (validate_accommodation cl .actual n ac rt false mr .training .state).warnings
        ↔ ¬ ac ≤ ACCOM_GENERAL_actual cl rt * (n : ℚ))) ∧
    ((validate_accommodation cl .actual n ac rt false mr .training
          .privateVenue).reimbursable_amount
        = min ac (ACCOM_TRAINING_PRIVATE cl rt * (n : ℚ)) ∧
      ((validate_accommodation cl .actual n ac rt false mr .training
            .privateVenue).is_approved = true
        ↔ ac ≤ ACCOM_TRAINING_PRIVATE cl rt * (n : ℚ)) ∧
      Warning.receiptFolio ∈
        (validate_accommodation cl .actual n ac rt false mr .training
          .privateVenue).warnings ∧
      (Warning.exceedsCeiling ∈
          (validate_accommodation cl .actual n ac rt false mr .training
            .privateVenue).warnings
        ↔ ¬ ac ≤ ACCOM_TRAINING_PRIVATE cl rt * (n : ℚ))) := by
  by_cases hj : cl = CLevel.c1c8 ∧ rt = RoomType.single
  · obtain ⟨h1, h2⟩ := hj
    subst h1
    subst h2
    by_cases hc : ac ≤ ACCOM_GENERAL_actual CLevel.c1c8 RoomType.single * (n : ℚ) <;>
    by_cases hp : ac ≤ ACCOM_TRAINING_PRIVATE CLevel.c1c8 RoomType.single * (n : ℚ) <;>
    simp [validate_accommodation, calc_general_accommodation,
      calc_training_accommodation, hc, hp]
  · by_cases hc : ac ≤ ACCOM_GENERAL_actual cl rt * (n : ℚ) <;>
    by_cases hp : ac ≤ ACCOM_TRAINING_PRIVATE cl rt * (n : ℚ) <;>
    simp [validate_accommodation, calc_general_accommodation,
      calc_training_accommodation, hc, hp, hj]

/-- Closed instance of `C1_actual_cost_accommodation`: General / ActualCost,
Junior single room, 2 nights, 4000 spent against a 3000 ceiling. -/
theorem C1_actual_cost_accommodation_witness :
    (validate_accommodation .c1c8 .actual 2 4000 .single false 0 .general
        .state).reimbursable_amount
      = min 4000 (ACCOM_GENERAL_actual .c1c8 .single * ((2 : ℤ) : ℚ)) :=
  (C1_actual_cost_accommodation .c1c8 .single 2 (by norm_num) 4000 0 .state).1.1

/-- `spec_distance_fare` is monotone in the distance. -/
lemma clampLen_mono {x y : ℚ} (len : ℚ) (hxy : x ≤ y) :
    clampLen x len ≤ clampLen y len :=
  min_le_min (max_le_max hxy le_rfl) le_rfl

lemma spec_distance_fare_mono {d d' : ℚ} (hd : d ≤ d') :
    spec_distance_fare d ≤ spec_distance_fare d' := by
  have m1 := clampLen_mono (x := d - 1) (y := d' - 1) 9 (by linarith)
  have m2 := clampLen_mono (x := d - 1 - 9) (y := d' - 1 - 9) 10 (by linarith)
  have m3 := clampLen_mono (x := d - 1 - 19) (y := d' - 1 - 19) 20 (by linarith)
  have m4 := clampLen_mono (x := d - 1 - 39) (y := d' - 1 - 39) 20 (by linarith)
  have m5 := clampLen_mono (x := d - 1 - 59) (y := d' - 1 - 59) 20 (by linarith)
  have m6 : max (d - 1 - 79) 0 ≤ max (d' - 1 - 79) 0 :=
    max_le_max (by linarith) le_rfl
  simp only [spec_distance_fare]
  have e1 := mul_le_mul_of_nonneg_right m1 (by norm_num : (0 : ℚ) ≤ 13 / 2)
  have e2 := mul_le_mul_of_nonneg_right m2 (by norm_num : (0 : ℚ) ≤ 7)
  have e3 := mul_le_mul_of_nonneg_right m3 (by norm_num : (0 : ℚ) ≤ 8)
  have e4 := mul_le_mul_of_nonneg_right m4 (by norm_num : (0 : ℚ) ≤ 17 / 2)
  have e5 := mul_le_mul_of_nonneg_right m5 (by norm_num : (0 : ℚ) ≤ 9)
  have e6 := mul_le_mul_of_nonneg_right m6 (by norm_num : (0 : ℚ) ≤ 21 / 2)
  linarith

/-- C6: the taxi-meter tariff.  The internally computed `total_fare`
matches the spec's band formula (base 35, greedy 9/10/20/20/20-km bands at
6.5/7/8/8.5/9, overflow at 10.5, traffic × 3, +20 booking, +50 airport;
35 at distance 0 and 100.5 at 11 km), but `calculate_taxi_meter` itself
never returns it: the result dictionary reads the never-assigned name
`fare_distance`, so every call fails. -/
theorem C6_taxi_meter_name_error :
    calculate_taxi_meter 0 0 false false = none ∧
    (∀ (d : ℚ) (t : ℤ) (b a : Bool), calculate_taxi_meter d t b a = none) ∧
    (∀ (d : ℚ) (t : ℤ) (b a : Bool),
      taxi_meter_total_fare d t b a = spec_taxi_total_fare d t b a) ∧
    taxi_meter_total_fare 0 0 false false = 35 ∧
    taxi_meter_total_fare 11 0 false false = 201 / 2 := by
  refine ⟨rfl, fun d t b a => rfl, ?_, ?_, ?_⟩
  · intro d t b a
    simp only [taxi_meter_total_fare, spec_taxi_total_fare,
      taxi_meter_distance_fare_eq_spec]
    ring
  · norm_num [taxi_meter_total_fare, taxi_meter_distance_fare]
  · norm_num [taxi_meter_total_fare, taxi_meter_distance_fare]

/-- C7: the taxi-meter `total_fare` value is monotonically non-decreasing
in the distance, the traffic minutes and each surcharge flag
independently. -/
theorem C7_taxi_fare_monotone (d d' : ℚ) (t t' : ℤ) (b b' a a' : Bool)
    (hd : d ≤ d') (ht : t ≤ t') (hb : b = true → b' = true)
    (ha : a = true → a' = true) :
    taxi_meter_total_fare d t b a ≤ taxi_meter_total_fare d' t' b' a' := by
  have h1 : taxi_meter_distance_fare d ≤ taxi_meter_distance_fare d' := by
    rw [taxi_meter_distance_fare_eq_spec, taxi_meter_distance_fare_eq_spec]
    exact spec_distance_fare_mono hd
  have h2 : (t : ℚ) * 3 ≤ (t' : ℚ) * 3 := by
    have h : (t : ℚ) ≤ (t' : ℚ) := by exact_mod_cast ht
    linarith
  have h3 : (if b = true then (20 : ℚ) else 0) ≤ (if b' = true then (20 : ℚ) else 0) := by
    cases b
    · simp only [Bool.false_eq_true, if_false]
      split_ifs <;> norm_num
    · rw [hb rfl]
  have h4 : (if a = true then (50 : ℚ) else 0) ≤ (if a' = true then (50 : ℚ) else 0) := by
    cases a
    · simp only [Bool.false_eq_true, if_false]
      split_ifs <;> norm_num
    · rw [ha rfl]
  simp only [taxi_meter_total_fare]
  linarith

/-- Closed instance of `C7_taxi_fare_monotone`. -/
theorem C7_taxi_fare_monotone_witness :
    taxi_meter_total_fare 0 0 false false ≤ taxi_meter_total_fare 11 5 true true :=
  C7_taxi_fare_monotone 0 11 0 5 false true false true (by norm_num) (by norm_num)
    (fun _ => rfl) (fun _ => rfl)

/-- C9: under the spec's input preconditions every money-bearing result
field is nonnegative, and in the ceiling-capped (ActualCost) accommodation
branches the reimbursable amount never exceeds the total ceiling. -/
theorem C9_money_nonneg (n : ℤ) (ac mr dist tcost : ℚ) (mc sc m : ℤ)
    (st en : ℚ) (hn : 0 ≤ n) (hac : 0 ≤ ac) (hmr : 0 ≤ mr) (hdist : 0 ≤ dist)
    (htc : 0 ≤ tcost) (hmc : 0 ≤ mc) (hsc : 0 ≤ sc) (hm : 0 ≤ m) (hse : st ≤ en) :
    (∀ cl et rt vs tt tv,
        0 ≤ (validate_accommodation cl et n ac rt vs mr tt tv).reimbursable_amount) ∧
    (∀ cl et rt vs tt tv tc,
        (validate_accommodation cl et n ac rt vs mr tt tv).total_ceiling = some tc →
        (validate_accommodation cl et n ac rt vs mr tt tv).reimbursable_amount ≤ tc) ∧
    (∀ v, 0 ≤ (calculate_transportation v dist).reimbursable_amount) ∧
    (∀ route, 0 ≤ (validate_taxi route tcost).reimbursable_amount) ∧
    (∀ ov cl, 0 ≤ (calculate_per_diem st en ov cl m).net_amount) ∧
    (∀ cl v, 0 ≤ (calculate_training_meal_allowance cl v mc sc).grand_total) := by
  have hnq : (0 : ℚ) ≤ (n : ℚ) := by exact_mod_cast hn
  refine ⟨?_, ?_, ?_, ?_, ?_, ?_⟩
  · intro cl et rt vs tt tv
    have hlump : 0 ≤ (if mr > 0 then mr else ACCOM_GENERAL_lump_sum cl) := by
      split_ifs with hmr0
      · exact hmr
      · cases cl <;> norm_num [ACCOM_GENERAL_lump_sum]
    have hga : 0 ≤ ACCOM_GENERAL_actual cl rt := by
      cases cl <;> cases rt <;> norm_num [ACCOM_GENERAL_actual]
    have htp : 0 ≤ ACCOM_TRAINING_PRIVATE cl rt := by
      cases cl <;> cases rt <;> norm_num [ACCOM_TRAINING_PRIVATE]
    cases vs
    · cases tt
      · cases et
        · rw [va_general_lump_reimb]
          exact mul_nonneg hlump hnq
        · rw [va_general_actual_reimb]
          exact le_min hac (mul_nonneg hga hnq)
      · cases tv
        · cases et
          · rw [va_state_lump_reimb]
            exact mul_nonneg hlump hnq
          · rw [va_state_actual_reimb]
            exact le_min hac (mul_nonneg hga hnq)
        · cases et
          · rw [va_private_lump_reimb]
            exact mul_nonneg htp hnq
          · rw [va_private_actual_reimb]
            exact le_min hac (mul_nonneg htp hnq)
    · rw [va_vehicle_reimb]
  · intro cl et rt vs tt tv tc hsome
    cases vs
    · cases tt
      · cases et
        · rw [va_general_lump_ceiling] at hsome
          exact Option.noConfusion hsome
        · rw [va_general_actual_ceiling] at hsome
          rw [va_general_actual_reimb, ← Option.some.inj hsome]
          exact min_le_right _ _
      · cases tv
        · cases et
          · rw [va_state_lump_ceiling] at hsome
            exact Option.noConfusion hsome
          · rw [va_state_actual_ceiling] at hsome
            rw [va_state_actual_reimb, ← Option.some.inj hsome]
            exact min_le_right _ _
        · cases et
          · rw [va_private_lump_ceiling] at hsome
            exact Option.noConfusion hsome
          · rw [va_private_actual_ceiling] at hsome
            rw [va_private_actual_reimb, ← Option.some.inj hsome]
            exact min_le_right _ _
    · rw [va_vehicle_ceiling] at hsome
      exact Option.noConfusion hsome
  · intro v
    rw [calculate_transportation_reimb]
    split_ifs <;> exact mul_nonneg hdist (by norm_num)
  · intro route
    cases route
    · rw [validate_taxi_intraprivince_reimb]
      exact htc
    · rw [validate_taxi_cross_bkk_reimb]
      exact le_min htc (by norm_num)
    · rw [validate_taxi_cross_other_reimb]
      exact le_min htc (by norm_num)
  · intro ov cl
    exact per_diem_net_nonneg st en hse ov cl m
  · intro cl v
    have h1 : (0 : ℚ) ≤ (mc : ℚ) := by exact_mod_cast hmc
    have h2 : (0 : ℚ) ≤ (sc : ℚ) := by exact_mod_cast hsc
    have hr1 : 0 ≤ (TRAINING_RATES v
        (if cl = CLevel.c9c11 then TrainingType.typeA else TrainingType.typeB)).1 := by
      cases v <;> split_ifs <;> norm_num [TRAINING_RATES]
    have hr2 : 0 ≤ (TRAINING_RATES v
        (if cl = CLevel.c9c11 then TrainingType.typeA else TrainingType.typeB)).2 := by
      cases v <;> split_ifs <;> norm_num [TRAINING_RATES]
    rw [training_meal_grand_def]
    exact add_nonneg (mul_nonneg h1 hr1) (mul_nonneg h2 hr2)

/-- Closed instance of `C9_money_nonneg`. -/
theorem C9_money_nonneg_witness :
    0 ≤ (validate_accommodation .c1c8 .actual 2 4000 .single false 0 .general
        .state).reimbursable_amount :=
  (C9_money_nonneg 2 4000 0 0 0 0 0 0 0 0 (by norm_num) (by norm_num) (by norm_num)
      (by norm_num) (by norm_num) (by norm_num) (by norm_num) (by norm_num)
      (by norm_num)).1 .c1c8 .actual .single false .general .state

end GovExpense
